import Mathlib

/-!
Verification of the rate-limiting engine wrapper
(src/kani/ext/ratelimits/engine.py, class RatelimitedEngine).

The wrapper composes an optional request-rate limiter, an optional token-rate
limiter and an optional concurrency semaphore in front of a wrapped engine.
The rate limiters themselves are instances of the external aiolimiter library,
whose code is not part of this repository; they are modelled here from the
specification of the token-bucket limiter (spec sections 3 and 4.1).  Everything
else (construction, the admission context manager, predict, stream, the cost
computation and the attribute pass-through) is translated directly from the
source file.

Calls are modelled as pure functions producing an event trace (the order of
acquisitions, the cost computation, the invocation of the wrapped engine, the
yielded stream chunks and the release of the concurrency slot), the resulting
limiter states and the call outcome.  Each awaited acquisition is a cancellation
point: a `CancelPoint` argument selects the suspension point (if any) at which
the calling context is cancelled, and cancellation at an await leaves the
awaited resource unconsumed (tokens are only decremented atomically at the
moment of admission).
-/

namespace KaniRatelimits

/-- Modelled from the spec: the token-bucket limiter state (spec section 3).
The repository delegates rate limiting to the external aiolimiter library,
which is not under src/; the spec describes it as a TokenBucketLimiter with
fields `capacity`, `refillRate` and `available` (`lastRefillTime` is
represented by passing the elapsed time to `refill` explicitly). -/
structure TokenBucketLimiter where
  capacity : ℚ
  refillRate : ℚ
  available : ℚ
deriving DecidableEq, Repr

/-- Modelled from the spec: a limiter is created once at configuration time with
`capacity = limit`, `refillRate = limit / period` and a full burst allowance
`available = capacity`. -/
def mkLimiter (limit period : ℚ) : TokenBucketLimiter :=
  { capacity := limit, refillRate := limit / period, available := limit }

/-- Modelled from the spec: continuous refill over elapsed seconds,
`available = min(capacity, available + refillRate * elapsed)`. -/
def refill (st : TokenBucketLimiter) (elapsed : ℚ) : TokenBucketLimiter :=
  { st with available := min st.capacity (st.available + st.refillRate * elapsed) }

/-- Modelled from the spec: the admission condition of `acquire`.  A request of
cost at most the capacity is admitted when `available ≥ cost`; an oversized
request (cost exceeding capacity) must still be admitted once `available`
reaches `capacity` (full burst), per the spec's oversized-cost edge case.
Both cases are `min cost capacity ≤ available`. -/
def admits (st : TokenBucketLimiter) (cost : ℚ) : Prop :=
  min cost st.capacity ≤ st.available

instance (st : TokenBucketLimiter) (cost : ℚ) : Decidable (admits st cost) := by
  unfold admits; infer_instance

/-- At the moment of admission the limiter is drained by the admitted cost. -/
def spend (st : TokenBucketLimiter) (cost : ℚ) : TokenBucketLimiter :=
  { st with available := st.available - cost }

/-- Modelled from the spec: `acquire` suspends while insufficient tokens are
available (here: an elapsed waiting time `t` passes, refilling the bucket) and
then admits, draining the bucket.  The operation has no error outcome: it is
total and never fails, for oversized costs as well. -/
def acquireAt (st : TokenBucketLimiter) (t cost : ℚ) : Except Nat TokenBucketLimiter :=
  Except.ok (spend (refill st t) cost)

/-- Names of attributes reachable on the wrapper object.  The first six are the
instance attributes assigned in `__init__`; the next six are the methods defined
by the wrapper class; `dyn n` stands for any other attribute name, which only
the wrapped engine may carry. -/
inductive AttrName where
  | engine
  | concurrency_semaphore
  | rpm_limiter
  | tpm_limiter
  | max_context_size
  | token_reserve
  | predictMethod
  | streamMethod
  | messageLenMethod
  | functionTokenReserveMethod
  | closeMethod
  | ratelimitCtxMethod
  | dyn (n : Nat)
deriving DecidableEq, Repr

/-- The wrapped engine (an external collaborator, spec section 6): its cost
functions, its predict/stream behaviour on given inputs, its two read-only
configuration values, and its other (dynamic) attributes.  Messages are
abstracted as natural numbers, function schemas as an optional list, completions
and chunks as natural numbers, and engine failures as `Except.error` codes. -/
structure WrappedEngine where
  message_len : Nat → Nat
  function_token_reserve : Option (List Nat) → Nat
  predictResult : List Nat → Option (List Nat) → Except Nat Nat
  streamChunks : List Nat → Option (List Nat) → List Nat
  max_context_size : Nat
  token_reserve : Nat
  attrs : Nat → Nat

/-- The keyword arguments of `RatelimitedEngine.__init__`.  A `none` limit
means the corresponding limit is left unset (unlimited). -/
structure Config where
  max_concurrency : Option Nat
  rpm_limit : Option ℚ
  rpm_period : ℚ
  tpm_limit : Option ℚ
  tpm_period : ℚ

/-- The wrapper state after construction: the wrapped engine, the optional
concurrency semaphore (`none` models `nullcontext()`), the two optional
limiters, and the two attribute values copied from the wrapped engine. -/
structure RatelimitedEngine where
  engine : WrappedEngine
  concurrency_semaphore : Option Nat
  rpm_limiter : Option TokenBucketLimiter
  tpm_limiter : Option TokenBucketLimiter
  max_context_size : Nat
  token_reserve : Nat

/-- Source `__init__`, lines 45-65: store the engine; a semaphore when
`max_concurrency` is given, else a null context; a limiter per configured rate
limit, else `None`; then copy `max_context_size` and `token_reserve` from the
wrapped engine. -/
def initEngine (engine : WrappedEngine) (cfg : Config) : RatelimitedEngine :=
  { engine := engine
    concurrency_semaphore := cfg.max_concurrency
    rpm_limiter := cfg.rpm_limit.map (fun l => mkLimiter l cfg.rpm_period)
    tpm_limiter := cfg.tpm_limit.map (fun l => mkLimiter l cfg.tpm_period)
    max_context_size := engine.max_context_size
    token_reserve := engine.token_reserve }

/-- Construction as a fallible operation.  The source `__init__` contains no
validation and no raise site, so construction always returns `Except.ok`. -/
def init (engine : WrappedEngine) (cfg : Config) : Except Nat RatelimitedEngine :=
  Except.ok (initEngine engine cfg)

/-- Source `message_len`, lines 89-90: pure pass-through to the wrapped engine. -/
def message_len (self : RatelimitedEngine) (m : Nat) : Nat :=
  self.engine.message_len m

/-- Source `function_token_reserve`, lines 92-93: pure pass-through to the wrapped
engine. -/
def function_token_reserve (self : RatelimitedEngine) (functions : Option (List Nat)) : Nat :=
  self.engine.function_token_reserve functions

/-- The token cost expression of `_ratelimit_ctx`, line 72:
`self.function_token_reserve(functions) + sum(self.message_len(m) for m in messages)`. -/
def nToks (self : RatelimitedEngine) (messages : List Nat) (functions : Option (List Nat)) : Nat :=
  function_token_reserve self functions + (messages.map (message_len self)).sum

/-- Observable events of one call, in the order they happen. -/
inductive Event where
  | acquireRpm (cost : ℚ)
  | computeCost (n : Nat)
  | acquireTpm (cost : ℚ)
  | acquireSlot
  | invokePredict
  | invokeStream
  | yieldChunk (c : Nat)
  | releaseSlot
deriving DecidableEq, Repr

/-- The awaited suspension point (if any) at which the calling context is
cancelled.  `never` is an uncancelled call.  A cancellation point only fires
when the corresponding await exists (the component is configured). -/
inductive CancelPoint where
  | never
  | atRpm
  | atTpm
  | atSlot
deriving DecidableEq, Repr

instance : DecidableEq (Except Nat Nat) := fun a b =>
  match a, b with
  | Except.ok x, Except.ok y => decidable_of_iff (x = y) (by simp)
  | Except.error x, Except.error y => decidable_of_iff (x = y) (by simp)
  | Except.ok _, Except.error _ => isFalse (by simp)
  | Except.error _, Except.ok _ => isFalse (by simp)

/-- How a call ends: the wrapped engine's predict result propagated verbatim,
the list of chunks the consumer drained from a stream, or unwinding because the
caller was cancelled while awaiting admission. -/
inductive Outcome where
  | completed (r : Except Nat Nat)
  | streamed (chunks : List Nat)
  | cancelledAwaitingAdmission
deriving DecidableEq, Repr

/-- The observable result of one call: its event trace, the limiter states
afterwards, and how it ended. -/
structure CallResult where
  trace : List Event
  rpm : Option TokenBucketLimiter
  tpm : Option TokenBucketLimiter
  outcome : Outcome
deriving DecidableEq, Repr

/-- Source `_ratelimit_ctx` (lines 67-75) together with the `async with` wrapper used
by `predict` and `stream`:

* if an rpm limiter is configured, await its acquire (cost 1) — a cancellation
  point; cancellation there consumes nothing;
* if a tpm limiter is configured, compute `n_toks` and await its acquire with
  that cost — a cancellation point; cancellation there happens after the cost
  computation but leaves the tpm limiter unconsumed (the rpm token already
  spent stays spent);
* enter the concurrency semaphore (a cancellation point when configured;
  `nullcontext` has no await and emits no events), run the body, and release
  the slot on every exit path (the context-manager exit). -/
def ratelimitCall (self : RatelimitedEngine) (messages : List Nat) (functions : Option (List Nat))
    (cancel : CancelPoint) (bodyEvents : List Event) (bodyOutcome : Outcome) : CallResult :=
  if self.rpm_limiter.isSome = true ∧ cancel = CancelPoint.atRpm then
    { trace := [], rpm := self.rpm_limiter, tpm := self.tpm_limiter,
      outcome := Outcome.cancelledAwaitingAdmission }
  else
    let ev1 : List Event := if self.rpm_limiter.isSome = true then [Event.acquireRpm 1] else []
    let rpm1 := self.rpm_limiter.map (fun l => spend l 1)
    if self.tpm_limiter.isSome = true ∧ cancel = CancelPoint.atTpm then
      { trace := ev1 ++ [Event.computeCost (nToks self messages functions)],
        rpm := rpm1, tpm := self.tpm_limiter,
        outcome := Outcome.cancelledAwaitingAdmission }
    else
      let n := nToks self messages functions
      let ev2 : List Event :=
        if self.tpm_limiter.isSome = true then [Event.computeCost n, Event.acquireTpm (n : ℚ)]
        else []
      let tpm1 := self.tpm_limiter.map (fun l => spend l (n : ℚ))
      if self.concurrency_semaphore.isSome = true ∧ cancel = CancelPoint.atSlot then
        { trace := ev1 ++ ev2, rpm := rpm1, tpm := tpm1,
          outcome := Outcome.cancelledAwaitingAdmission }
      else
        let ev3 : List Event :=
          if self.concurrency_semaphore.isSome = true then [Event.acquireSlot] else []
        let ev4 : List Event :=
          if self.concurrency_semaphore.isSome = true then [Event.releaseSlot] else []
        { trace := ev1 ++ ev2 ++ ev3 ++ bodyEvents ++ ev4, rpm := rpm1, tpm := tpm1,
          outcome := bodyOutcome }

/-- Source `predict`, lines 77-81: run the body (one invocation of the wrapped
engine's predict, whose result — success or failure — is propagated verbatim)
under `_ratelimit_ctx`. -/
def predict (self : RatelimitedEngine) (messages : List Nat) (functions : Option (List Nat))
    (cancel : CancelPoint) : CallResult :=
  ratelimitCall self messages functions cancel [Event.invokePredict]
    (Outcome.completed (self.engine.predictResult messages functions))

/-- Source `stream`, lines 83-86: under `_ratelimit_ctx`, invoke the wrapped engine's
stream and yield its chunks one by one.  `consumed` is the number of chunks the
consumer drains before closing the generator (any value at least the chunk
count models full exhaustion; a smaller value models early abandonment, which
closes the generator and runs the context-manager exits). -/
def stream (self : RatelimitedEngine) (messages : List Nat) (functions : Option (List Nat))
    (cancel : CancelPoint) (consumed : Nat) : CallResult :=
  ratelimitCall self messages functions cancel
    (Event.invokeStream ::
      ((self.engine.streamChunks messages functions).take consumed).map Event.yieldChunk)
    (Outcome.streamed ((self.engine.streamChunks messages functions).take consumed))

/-- Python attribute lookup on the wrapper: where a given name resolves.
The instance attributes assigned in `__init__` and the methods defined on the
class are found by normal lookup; only names absent from both fall through to
`__getattr__` (line 98-99), which forwards to the wrapped engine. -/
inductive AttrSource where
  | instanceDict
  | classDict
  | forwarded
deriving DecidableEq, Repr

/-- Resolution of each attribute name on the wrapper, following Python lookup
order for the source class. -/
def attrSource : AttrName → AttrSource
  | AttrName.engine => AttrSource.instanceDict
  | AttrName.concurrency_semaphore => AttrSource.instanceDict
  | AttrName.rpm_limiter => AttrSource.instanceDict
  | AttrName.tpm_limiter => AttrSource.instanceDict
  | AttrName.max_context_size => AttrSource.instanceDict
  | AttrName.token_reserve => AttrSource.instanceDict
  | AttrName.predictMethod => AttrSource.classDict
  | AttrName.streamMethod => AttrSource.classDict
  | AttrName.messageLenMethod => AttrSource.classDict
  | AttrName.functionTokenReserveMethod => AttrSource.classDict
  | AttrName.closeMethod => AttrSource.classDict
  | AttrName.ratelimitCtxMethod => AttrSource.classDict
  | AttrName.dyn _ => AttrSource.forwarded

/-- Reading the numeric-valued attributes of the wrapper: the two copied
configuration values are served from the wrapper's own fields; an unknown name
falls through to `__getattr__` and reads the wrapped engine at access time;
the remaining names hold non-numeric objects (`none` here). -/
def readAttrNat (self : RatelimitedEngine) : AttrName → Option Nat
  | AttrName.max_context_size => some self.max_context_size
  | AttrName.token_reserve => some self.token_reserve
  | AttrName.dyn n => some (self.engine.attrs n)
  | _ => none

/-- In-place mutation of the wrapped engine object after construction: the
wrapper keeps a reference to the same object, so its `engine` field sees the
mutation, while the values copied at construction time do not change. -/
def mutateEngine (self : RatelimitedEngine) (f : WrappedEngine → WrappedEngine) :
    RatelimitedEngine :=
  { self with engine := f self.engine }

/-! ### Event classification helpers -/

def isRpmAcquire : Event → Bool
  | Event.acquireRpm _ => true
  | _ => false

def isTpmAcquire : Event → Bool
  | Event.acquireTpm _ => true
  | _ => false

def isSlotAcquire : Event → Bool
  | Event.acquireSlot => true
  | _ => false

def isSlotRelease : Event → Bool
  | Event.releaseSlot => true
  | _ => false

def isCostCompute : Event → Bool
  | Event.computeCost _ => true
  | _ => false

def isInvoke : Event → Bool
  | Event.invokePredict => true
  | Event.invokeStream => true
  | _ => false

def isAdmissionAcquire : Event → Bool
  | Event.acquireRpm _ => true
  | Event.acquireTpm _ => true
  | Event.acquireSlot => true
  | _ => false

/-- Stage number of each event in the admission protocol order. -/
def rank : Event → Nat
  | Event.acquireRpm _ => 0
  | Event.computeCost _ => 1
  | Event.acquireTpm _ => 2
  | Event.acquireSlot => 3
  | Event.invokePredict => 4
  | Event.invokeStream => 4
  | Event.yieldChunk _ => 5
  | Event.releaseSlot => 6

/-- A trace is stage-ordered when its events appear in nondecreasing stage
order: every pair of positions i < j satisfies `rank trace[i] ≤ rank trace[j]`. -/
def rankOrdered (tr : List Event) : Prop :=
  List.Pairwise (fun a b => rank a ≤ rank b) tr

/-- Every event of `tr` satisfying `p` occurs before every event satisfying
`q`: at every split of the trace into a past and a future, if a `p` event is
still in the future then no `q` event is in the past. -/
def allBefore (tr : List Event) (p q : Event → Bool) : Prop :=
  ∀ pre suf, tr = pre ++ suf → (∃ x ∈ suf, p x = true) → ∀ e ∈ pre, q e = false

/-- Events yielded to the consumer of a stream. -/
def isYield : Event → Bool
  | Event.yieldChunk _ => true
  | _ => false

/-! ### Concrete values used by witnesses and counterexamples -/

/-- A concrete wrapped engine used by witnesses: message length is the message
itself, the function reserve is the number of schemas, predict yields `7`, and
stream yields three chunks. -/
def demoEngine : WrappedEngine :=
  { message_len := fun m => m
    function_token_reserve := fun functions => (functions.getD []).length
    predictResult := fun _ _ => Except.ok 7
    streamChunks := fun _ _ => [10, 20, 30]
    max_context_size := 4096
    token_reserve := 5
    attrs := fun n => n + 100 }

/-- Same as `demoEngine` but with a failing predict. -/
def failingEngine : WrappedEngine :=
  { demoEngine with predictResult := fun _ _ => Except.error 42 }

/-- A fully configured wrapper: concurrency 2, 10 requests and 100 tokens per
60 seconds. -/
def demoConfig : Config :=
  { max_concurrency := some 2, rpm_limit := some 10, rpm_period := 60,
    tpm_limit := some 100, tpm_period := 60 }

/-- A configuration with every limit left unset. -/
def unlimitedConfig : Config :=
  { max_concurrency := none, rpm_limit := none, rpm_period := 60,
    tpm_limit := none, tpm_period := 60 }

/-- A configuration with a negative (invalid) request-rate limit. -/
def badConfig : Config :=
  { max_concurrency := none, rpm_limit := some (-1), rpm_period := 60,
    tpm_limit := none, tpm_period := 60 }

def demoRE : RatelimitedEngine := initEngine demoEngine demoConfig

def failingRE : RatelimitedEngine := initEngine failingEngine demoConfig

def unlimitedRE : RatelimitedEngine := initEngine demoEngine unlimitedConfig

/-- A partially drained limiter used by the oversized-cost witness. -/
def partialLimiter : TokenBucketLimiter :=
  { capacity := 10, refillRate := 1/6, available := 4 }


@[simp] lemma rank_acquireRpm (q : ℚ) : rank (Event.acquireRpm q) = 0 := rfl

@[simp] lemma rank_computeCost (n : Nat) : rank (Event.computeCost n) = 1 := rfl

@[simp] lemma rank_acquireTpm (q : ℚ) : rank (Event.acquireTpm q) = 2 := rfl

@[simp] lemma rank_acquireSlot : rank Event.acquireSlot = 3 := rfl

@[simp] lemma rank_invokePredict : rank Event.invokePredict = 4 := rfl

@[simp] lemma rank_invokeStream : rank Event.invokeStream = 4 := rfl

@[simp] lemma rank_yieldChunk (c : Nat) : rank (Event.yieldChunk c) = 5 := rfl

@[simp] lemma rank_releaseSlot : rank Event.releaseSlot = 6 := rfl

/-- In a stage-ordered trace, events of a strictly lower stage all occur before
events of a higher stage. -/
lemma allBefore_of_rankOrdered {tr : List Event} {p q : Event → Bool}
    (h : rankOrdered tr)
    (hr : ∀ a b, p a = true → q b = true → rank a < rank b) :
    allBefore tr p q := by
  intro pre suf hsplit hex e he
  rcases hex with ⟨x, hx, hpx⟩
  by_contra hqe
  have hq : q e = true := by
    cases hqe2 : q e
    · exact absurd hqe2 hqe
    · rfl
  have hsp : rankOrdered (pre ++ suf) := hsplit ▸ h
  have hle : rank e ≤ rank x := (List.pairwise_append.mp hsp).2.2 e he x hx
  have hlt : rank x < rank e := hr x e hpx hq
  omega

lemma pairwise_rank_yields (cs : List Nat) :
    List.Pairwise (fun a b => rank a ≤ rank b) (cs.map Event.yieldChunk) := by
  rw [List.pairwise_map]
  exact List.pairwise_of_forall (fun a b => by simp)

lemma rank_of_mem_yields_take {a : Event} {cs : List Nat} {k : Nat}
    (h : a ∈ (cs.map Event.yieldChunk).take k) : rank a = 5 := by
  have h2 : a ∈ cs.map Event.yieldChunk := List.mem_of_mem_take h
  rcases List.mem_map.mp h2 with ⟨c, _, rfl⟩
  rfl

/-- Unfolding of the admission wrapper for an uncancelled call. -/
lemma ratelimitCall_never (self : RatelimitedEngine) (m : List Nat) (f : Option (List Nat))
    (be : List Event) (bo : Outcome) :
    ratelimitCall self m f CancelPoint.never be bo =
      { trace :=
          (if self.rpm_limiter.isSome = true then [Event.acquireRpm 1] else []) ++
          ((if self.tpm_limiter.isSome = true then
              [Event.computeCost (nToks self m f), Event.acquireTpm ((nToks self m f : ℚ))]
            else []) ++
          ((if self.concurrency_semaphore.isSome = true then [Event.acquireSlot] else []) ++
          (be ++
          (if self.concurrency_semaphore.isSome = true then [Event.releaseSlot] else [])))),
        rpm := self.rpm_limiter.map (fun l => spend l 1),
        tpm := self.tpm_limiter.map (fun l => spend l ((nToks self m f : ℚ))),
        outcome := bo } := by
  simp [ratelimitCall]

/-- The trace of an uncancelled `predict` call is stage-ordered. -/
lemma rankOrdered_predict (self : RatelimitedEngine) (m : List Nat) (f : Option (List Nat)) :
    rankOrdered (predict self m f CancelPoint.never).trace := by
  rcases self with ⟨E, sem, rpm, tpm, mcs, tres⟩
  rcases sem with _ | s <;> rcases rpm with _ | L1 <;> rcases tpm with _ | L2 <;>
    simp [predict, ratelimitCall, rankOrdered, List.pairwise_append, List.pairwise_cons]

/-- The trace of an uncancelled `stream` call is stage-ordered, for any number
of chunks drained by the consumer. -/
lemma rankOrdered_stream (self : RatelimitedEngine) (m : List Nat) (f : Option (List Nat))
    (consumed : Nat) :
    rankOrdered (stream self m f CancelPoint.never consumed).trace := by
  rcases self with ⟨E, sem, rpm, tpm, mcs, tres⟩
  have hp : List.Pairwise (fun a b => rank a ≤ rank b)
      ((List.map Event.yieldChunk (E.streamChunks m f)).take consumed) :=
    (pairwise_rank_yields _).sublist (List.take_sublist _ _)
  have h5 : ∀ a ∈ (List.map Event.yieldChunk (E.streamChunks m f)).take consumed, rank a = 5 :=
    fun _ ha => rank_of_mem_yields_take ha
  rcases sem with _ | s <;> rcases rpm with _ | L1 <;> rcases tpm with _ | L2 <;>
    simp [stream, ratelimitCall, rankOrdered, List.pairwise_append, List.pairwise_cons] <;>
    (repeat' apply And.intro) <;>
    (first
      | exact hp
      | (intro a ha
         rcases ha with ha | ha
         · have := h5 a ha; omega
         · subst ha; simp)
      | (intro a ha; have := h5 a ha; omega))

/-! ### Claims about the token-bucket limiter -/

/-- Claim C2: a request whose cost exceeds the limiter capacity is still
eventually admitted — after a long enough wait the bucket refills to full burst
and the admission condition holds — and the acquire operation has no error
outcome for the oversized cost.  (The token-bucket limiter is modelled from the
spec because the repository delegates it to the external aiolimiter library.) -/
theorem c2_oversized_cost_eventually_admitted (st : TokenBucketLimiter) (cost : ℚ)
    (hrate : 0 < st.refillRate) (hover : st.capacity < cost) :
    ∃ t : ℚ, 0 ≤ t ∧ admits (refill st t) cost ∧
      acquireAt st t cost = Except.ok (spend (refill st t) cost) := by
  refine ⟨max ((st.capacity - st.available) / st.refillRate) 0, le_max_right _ _, ?_, rfl⟩
  have h1 : st.capacity - st.available ≤
      max ((st.capacity - st.available) / st.refillRate) 0 * st.refillRate :=
    (div_le_iff₀ hrate).mp
      (le_max_left ((st.capacity - st.available) / st.refillRate) 0)
  have h2 : st.capacity ≤ st.available +
      st.refillRate * max ((st.capacity - st.available) / st.refillRate) 0 := by
    nlinarith
  show min cost (refill st _).capacity ≤ (refill st _).available
  simp only [refill]
  have h3 : min cost st.capacity = st.capacity := min_eq_right (le_of_lt hover)
  rw [h3]
  exact le_min (le_refl _) h2

/-- Witness for C2: a limiter of capacity 10 refilling 1/6 token per second and
holding 4 tokens eventually admits a request of cost 25. -/
theorem c2_witness :
    (0 : ℚ) < partialLimiter.refillRate ∧ partialLimiter.capacity < 25 ∧
    (∃ t : ℚ, 0 ≤ t ∧ admits (refill partialLimiter t) 25 ∧
      acquireAt partialLimiter t 25 = Except.ok (spend (refill partialLimiter t) 25)) :=
  ⟨by norm_num [partialLimiter], by norm_num [partialLimiter],
    c2_oversized_cost_eventually_admitted partialLimiter 25
      (by norm_num [partialLimiter]) (by norm_num [partialLimiter])⟩

/-! ### Claim C7: construction-time validation -/

/-- Claim C7 counterexample: a negative request-rate limit is an invalid
configuration, yet construction succeeds (the source `__init__` performs no
validation), so constructing the wrapper does not fail at construction time
with a configuration error. -/
theorem c7_counterexample :
    ((-1 : ℚ) < 0) ∧ badConfig.rpm_limit = some (-1) ∧
      (init demoEngine badConfig).isOk = true :=
  ⟨by norm_num, rfl, rfl⟩

/-- Claim C7 (amended): construction performs no validation of the
configuration; any configuration, including zero or negative rate limits and
periods, is accepted and construction succeeds, storing the limiter
configurations unchecked.  Errors from an invalid rate-limit configuration can
therefore surface only at call time, not at construction time. -/
theorem c7_no_construction_validation (E : WrappedEngine) (cfg : Config) :
    init E cfg = Except.ok (initEngine E cfg) ∧
    (init E cfg).isOk = true ∧
    (initEngine E cfg).rpm_limiter = cfg.rpm_limit.map (fun l => mkLimiter l cfg.rpm_period) ∧
    (initEngine E cfg).tpm_limiter = cfg.tpm_limit.map (fun l => mkLimiter l cfg.tpm_period) ∧
    (initEngine E cfg).concurrency_semaphore = cfg.max_concurrency :=
  ⟨rfl, rfl, rfl, rfl, rfl⟩

/-! ### Claim C10: attribute snapshot versus pass-through -/

/-- Claim C10 counterexample: `rpm_limiter` is an attribute of the wrapper
other than `max_context_size` and `token_reserve`, yet reading it is not
forwarded to the wrapped engine: it resolves to the wrapper's own instance
attribute assigned in `__init__`.  So it is not the case that every attribute
other than the two copied ones is forwarded at access time. -/
theorem c10_counterexample :
    attrSource AttrName.rpm_limiter ≠ AttrSource.forwarded ∧
    AttrName.rpm_limiter ≠ AttrName.max_context_size ∧
    AttrName.rpm_limiter ≠ AttrName.token_reserve := by
  refine ⟨?_, ?_, ?_⟩ <;> intro h <;> cases h

/-- Claim C10 (amended): `max_context_size` and `token_reserve` are copied from
the wrapped engine once at construction and reads return the values observed at
construction even after the wrapped engine is mutated, while attribute names
not defined on the wrapper fall through to `__getattr__` and are forwarded to
the wrapped engine at access time (observing the mutation); the wrapper's own
instance attributes and methods, however, are served from the wrapper itself,
not forwarded. -/
theorem c10_snapshot_and_forwarding (E : WrappedEngine) (cfg : Config)
    (f : WrappedEngine → WrappedEngine) :
    readAttrNat (mutateEngine (initEngine E cfg) f) AttrName.max_context_size
      = some E.max_context_size ∧
    readAttrNat (mutateEngine (initEngine E cfg) f) AttrName.token_reserve
      = some E.token_reserve ∧
    attrSource AttrName.max_context_size = AttrSource.instanceDict ∧
    attrSource AttrName.token_reserve = AttrSource.instanceDict ∧
    attrSource AttrName.engine = AttrSource.instanceDict ∧
    attrSource AttrName.rpm_limiter = AttrSource.instanceDict ∧
    attrSource AttrName.predictMethod = AttrSource.classDict ∧
    ∀ n : Nat, attrSource (AttrName.dyn n) = AttrSource.forwarded ∧
      readAttrNat (mutateEngine (initEngine E cfg) f) (AttrName.dyn n)
        = some ((f E).attrs n) :=
  ⟨rfl, rfl, rfl, rfl, rfl, rfl, rfl, fun _ => ⟨rfl, rfl⟩⟩

/-! ### Small facts about event classes and the yield segment -/

lemma rank_of_isRpmAcquire {a : Event} (h : isRpmAcquire a = true) : rank a = 0 := by
  cases a <;> simp_all [isRpmAcquire]

lemma rank_of_isCostCompute {a : Event} (h : isCostCompute a = true) : rank a = 1 := by
  cases a <;> simp_all [isCostCompute]

lemma rank_of_isTpmAcquire {a : Event} (h : isTpmAcquire a = true) : rank a = 2 := by
  cases a <;> simp_all [isTpmAcquire]

lemma rank_of_isSlotAcquire {a : Event} (h : isSlotAcquire a = true) : rank a = 3 := by
  cases a <;> simp_all [isSlotAcquire]

lemma rank_of_isInvoke {a : Event} (h : isInvoke a = true) : rank a = 4 := by
  cases a <;> simp_all [isInvoke]

lemma rank_of_isSlotRelease {a : Event} (h : isSlotRelease a = true) : rank a = 6 := by
  cases a <;> simp_all [isSlotRelease]

lemma rank_of_isAdmissionAcquire {a : Event} (h : isAdmissionAcquire a = true) :
    rank a ≤ 3 := by
  cases a <;> simp_all [isAdmissionAcquire]

lemma not_mem_yields_acquireRpm (q : ℚ) (cs : List Nat) (k : Nat) :
    Event.acquireRpm q ∉ (cs.map Event.yieldChunk).take k := by
  intro h; simpa using rank_of_mem_yields_take h

lemma not_mem_yields_acquireTpm (q : ℚ) (cs : List Nat) (k : Nat) :
    Event.acquireTpm q ∉ (cs.map Event.yieldChunk).take k := by
  intro h; simpa using rank_of_mem_yields_take h

lemma not_mem_yields_acquireSlot (cs : List Nat) (k : Nat) :
    Event.acquireSlot ∉ (cs.map Event.yieldChunk).take k := by
  intro h; simpa using rank_of_mem_yields_take h

lemma not_mem_yields_computeCost (n : Nat) (cs : List Nat) (k : Nat) :
    Event.computeCost n ∉ (cs.map Event.yieldChunk).take k := by
  intro h; simpa using rank_of_mem_yields_take h

lemma not_mem_yields_releaseSlot (cs : List Nat) (k : Nat) :
    Event.releaseSlot ∉ (cs.map Event.yieldChunk).take k := by
  intro h; simpa using rank_of_mem_yields_take h

lemma count_releaseSlot_yields (cs : List Nat) (k : Nat) :
    ((cs.map Event.yieldChunk).take k).count Event.releaseSlot = 0 :=
  List.count_eq_zero.mpr (not_mem_yields_releaseSlot cs k)

lemma countP_yields_eq_zero {p : Event → Bool} (hp : ∀ c, p (Event.yieldChunk c) = false)
    (cs : List Nat) (k : Nat) : ((cs.map Event.yieldChunk).take k).countP p = 0 := by
  rw [List.countP_eq_zero]
  intro a ha
  rcases List.mem_map.mp (List.mem_of_mem_take ha) with ⟨c, _, rfl⟩
  simp [hp c]

/-! ### Claim C1: the fixed admission order -/

/-- Claim C1: on every uncancelled `predict` or `stream` call, the admission
steps occur in the fixed order — the request-rate acquire with cost 1 (present
exactly when an rpm limiter is configured), then the token-rate acquire with
the estimated token cost (present exactly when a tpm limiter is configured),
then the concurrency-slot acquire (present exactly when a semaphore is
configured) — every one of the three acquisitions precedes every other as
listed, whichever subset of components is configured; every admission
acquisition of any kind precedes the invocation of the wrapped engine's
corresponding operation (so the engine is invoked only after all admissions);
and the concurrency slot is released (exactly once, when configured) when the
call completes, after the invocation and after every acquisition. -/
theorem c1_fixed_admission_order (self : RatelimitedEngine) (m : List Nat)
    (f : Option (List Nat)) (consumed : Nat) :
    allBefore (predict self m f CancelPoint.never).trace isRpmAcquire isTpmAcquire ∧
    allBefore (predict self m f CancelPoint.never).trace isRpmAcquire isSlotAcquire ∧
    allBefore (predict self m f CancelPoint.never).trace isTpmAcquire isSlotAcquire ∧
    allBefore (predict self m f CancelPoint.never).trace isSlotAcquire isInvoke ∧
    allBefore (predict self m f CancelPoint.never).trace isAdmissionAcquire isInvoke ∧
    allBefore (predict self m f CancelPoint.never).trace isInvoke isSlotRelease ∧
    allBefore (predict self m f CancelPoint.never).trace isAdmissionAcquire isSlotRelease ∧
    allBefore (stream self m f CancelPoint.never consumed).trace isRpmAcquire isTpmAcquire ∧
    allBefore (stream self m f CancelPoint.never consumed).trace isRpmAcquire isSlotAcquire ∧
    allBefore (stream self m f CancelPoint.never consumed).trace isTpmAcquire isSlotAcquire ∧
    allBefore (stream self m f CancelPoint.never consumed).trace isSlotAcquire isInvoke ∧
    allBefore (stream self m f CancelPoint.never consumed).trace isAdmissionAcquire isInvoke ∧
    allBefore (stream self m f CancelPoint.never consumed).trace isInvoke isSlotRelease ∧
    allBefore (stream self m f CancelPoint.never consumed).trace isAdmissionAcquire isSlotRelease ∧
    ((Event.acquireRpm 1 ∈ (predict self m f CancelPoint.never).trace) ↔
      self.rpm_limiter.isSome = true) ∧
    ((Event.acquireTpm ((nToks self m f : ℚ)) ∈ (predict self m f CancelPoint.never).trace) ↔
      self.tpm_limiter.isSome = true) ∧
    ((Event.acquireSlot ∈ (predict self m f CancelPoint.never).trace) ↔
      self.concurrency_semaphore.isSome = true) ∧
    Event.invokePredict ∈ (predict self m f CancelPoint.never).trace ∧
    (predict self m f CancelPoint.never).trace.count Event.releaseSlot =
      (if self.concurrency_semaphore.isSome = true then 1 else 0) ∧
    ((Event.acquireRpm 1 ∈ (stream self m f CancelPoint.never consumed).trace) ↔
      self.rpm_limiter.isSome = true) ∧
    ((Event.acquireTpm ((nToks self m f : ℚ)) ∈
        (stream self m f CancelPoint.never consumed).trace) ↔
      self.tpm_limiter.isSome = true) ∧
    ((Event.acquireSlot ∈ (stream self m f CancelPoint.never consumed).trace) ↔
      self.concurrency_semaphore.isSome = true) ∧
    Event.invokeStream ∈ (stream self m f CancelPoint.never consumed).trace ∧
    (stream self m f CancelPoint.never consumed).trace.count Event.releaseSlot =
      (if self.concurrency_semaphore.isSome = true then 1 else 0) := by
  have op := rankOrdered_predict self m f
  have os := rankOrdered_stream self m f consumed
  refine ⟨allBefore_of_rankOrdered op (fun a b ha hb => by
      rw [rank_of_isRpmAcquire ha, rank_of_isTpmAcquire hb]; omega),
    allBefore_of_rankOrdered op (fun a b ha hb => by
      rw [rank_of_isRpmAcquire ha, rank_of_isSlotAcquire hb]; omega),
    allBefore_of_rankOrdered op (fun a b ha hb => by
      rw [rank_of_isTpmAcquire ha, rank_of_isSlotAcquire hb]; omega),
    allBefore_of_rankOrdered op (fun a b ha hb => by
      rw [rank_of_isSlotAcquire ha, rank_of_isInvoke hb]; omega),
    allBefore_of_rankOrdered op (fun a b ha hb => by
      have h3 := rank_of_isAdmissionAcquire ha
      rw [rank_of_isInvoke hb]; omega),
    allBefore_of_rankOrdered op (fun a b ha hb => by
      rw [rank_of_isInvoke ha, rank_of_isSlotRelease hb]; omega),
    allBefore_of_rankOrdered op (fun a b ha hb => by
      have h3 := rank_of_isAdmissionAcquire ha
      rw [rank_of_isSlotRelease hb]; omega),
    allBefore_of_rankOrdered os (fun a b ha hb => by
      rw [rank_of_isRpmAcquire ha, rank_of_isTpmAcquire hb]; omega),
    allBefore_of_rankOrdered os (fun a b ha hb => by
      rw [rank_of_isRpmAcquire ha, rank_of_isSlotAcquire hb]; omega),
    allBefore_of_rankOrdered os (fun a b ha hb => by
      rw [rank_of_isTpmAcquire ha, rank_of_isSlotAcquire hb]; omega),
    allBefore_of_rankOrdered os (fun a b ha hb => by
      rw [rank_of_isSlotAcquire ha, rank_of_isInvoke hb]; omega),
    allBefore_of_rankOrdered os (fun a b ha hb => by
      have h3 := rank_of_isAdmissionAcquire ha
      rw [rank_of_isInvoke hb]; omega),
    allBefore_of_rankOrdered os (fun a b ha hb => by
      rw [rank_of_isInvoke ha, rank_of_isSlotRelease hb]; omega),
    allBefore_of_rankOrdered os (fun a b ha hb => by
      have h3 := rank_of_isAdmissionAcquire ha
      rw [rank_of_isSlotRelease hb]; omega),
    ?_⟩
  rcases self with ⟨E, sem, rpm, tpm, mcs, tres⟩
  rcases sem with _ | sv <;> rcases rpm with _ | L1 <;> rcases tpm with _ | L2 <;>
    simp [predict, stream, ratelimitCall, List.count_append, count_releaseSlot_yields,
      not_mem_yields_acquireRpm, not_mem_yields_acquireTpm, not_mem_yields_acquireSlot]

/-- Witness for C1 at a concrete fully configured wrapper. -/
theorem c1_witness :
    allBefore (predict demoRE [3] none CancelPoint.never).trace isRpmAcquire isTpmAcquire ∧
    allBefore (predict demoRE [3] none CancelPoint.never).trace isRpmAcquire isSlotAcquire ∧
    allBefore (predict demoRE [3] none CancelPoint.never).trace isTpmAcquire isSlotAcquire ∧
    allBefore (predict demoRE [3] none CancelPoint.never).trace isSlotAcquire isInvoke ∧
    allBefore (predict demoRE [3] none CancelPoint.never).trace isAdmissionAcquire isInvoke ∧
    allBefore (predict demoRE [3] none CancelPoint.never).trace isInvoke isSlotRelease ∧
    allBefore (predict demoRE [3] none CancelPoint.never).trace isAdmissionAcquire isSlotRelease ∧
    allBefore (stream demoRE [3] none CancelPoint.never 2).trace isRpmAcquire isTpmAcquire ∧
    allBefore (stream demoRE [3] none CancelPoint.never 2).trace isRpmAcquire isSlotAcquire ∧
    allBefore (stream demoRE [3] none CancelPoint.never 2).trace isTpmAcquire isSlotAcquire ∧
    allBefore (stream demoRE [3] none CancelPoint.never 2).trace isSlotAcquire isInvoke ∧
    allBefore (stream demoRE [3] none CancelPoint.never 2).trace isAdmissionAcquire isInvoke ∧
    allBefore (stream demoRE [3] none CancelPoint.never 2).trace isInvoke isSlotRelease ∧
    allBefore (stream demoRE [3] none CancelPoint.never 2).trace isAdmissionAcquire isSlotRelease ∧
    ((Event.acquireRpm 1 ∈ (predict demoRE [3] none CancelPoint.never).trace) ↔
      demoRE.rpm_limiter.isSome = true) ∧
    ((Event.acquireTpm ((nToks demoRE [3] none : ℚ)) ∈ (predict demoRE [3] none CancelPoint.never).trace) ↔
      demoRE.tpm_limiter.isSome = true) ∧
    ((Event.acquireSlot ∈ (predict demoRE [3] none CancelPoint.never).trace) ↔
      demoRE.concurrency_semaphore.isSome = true) ∧
    Event.invokePredict ∈ (predict demoRE [3] none CancelPoint.never).trace ∧
    (predict demoRE [3] none CancelPoint.never).trace.count Event.releaseSlot =
      (if demoRE.concurrency_semaphore.isSome = true then 1 else 0) ∧
    ((Event.acquireRpm 1 ∈ (stream demoRE [3] none CancelPoint.never 2).trace) ↔
      demoRE.rpm_limiter.isSome = true) ∧
    ((Event.acquireTpm ((nToks demoRE [3] none : ℚ)) ∈
        (stream demoRE [3] none CancelPoint.never 2).trace) ↔
      demoRE.tpm_limiter.isSome = true) ∧
    ((Event.acquireSlot ∈ (stream demoRE [3] none CancelPoint.never 2).trace) ↔
      demoRE.concurrency_semaphore.isSome = true) ∧
    Event.invokeStream ∈ (stream demoRE [3] none CancelPoint.never 2).trace ∧
    (stream demoRE [3] none CancelPoint.never 2).trace.count Event.releaseSlot =
      (if demoRE.concurrency_semaphore.isSome = true then 1 else 0) :=
  c1_fixed_admission_order demoRE [3] none 2

/-! ### Claim C3: when the token cost is computed -/

/-- Claim C3 counterexample: on a fully configured wrapper, the token cost is
not computed before any acquisition — the request-rate acquire happens first,
and the cost is computed only afterwards (inside the token-rate branch of
`_ratelimit_ctx`). -/
theorem c3_counterexample :
    ¬ allBefore (predict demoRE [3] none CancelPoint.never).trace
        isCostCompute isAdmissionAcquire := by
  intro h
  have htr : (predict demoRE [3] none CancelPoint.never).trace =
      [Event.acquireRpm 1, Event.computeCost 3, Event.acquireTpm 3,
       Event.acquireSlot, Event.invokePredict, Event.releaseSlot] := by
    simp [predict, ratelimitCall, demoRE, initEngine, demoConfig, demoEngine, nToks,
      message_len, function_token_reserve]
  have hc := h [Event.acquireRpm 1]
      [Event.computeCost 3, Event.acquireTpm 3, Event.acquireSlot, Event.invokePredict,
        Event.releaseSlot]
      (by rw [htr]; rfl)
      ⟨Event.computeCost 3, by simp, rfl⟩
      (Event.acquireRpm 1) (by simp)
  simp [isAdmissionAcquire] at hc

lemma countP_costCompute_yields (cs : List Nat) (k : Nat) :
    ((cs.map Event.yieldChunk).take k).countP isCostCompute = 0 :=
  countP_yields_eq_zero (fun _ => rfl) cs k

lemma countP_rpmAcquire_yields (cs : List Nat) (k : Nat) :
    ((cs.map Event.yieldChunk).take k).countP isRpmAcquire = 0 :=
  countP_yields_eq_zero (fun _ => rfl) cs k

lemma countP_tpmAcquire_yields (cs : List Nat) (k : Nat) :
    ((cs.map Event.yieldChunk).take k).countP isTpmAcquire = 0 :=
  countP_yields_eq_zero (fun _ => rfl) cs k

lemma countP_slotAcquire_yields (cs : List Nat) (k : Nat) :
    ((cs.map Event.yieldChunk).take k).countP isSlotAcquire = 0 :=
  countP_yields_eq_zero (fun _ => rfl) cs k

lemma countP_slotRelease_yields (cs : List Nat) (k : Nat) :
    ((cs.map Event.yieldChunk).take k).countP isSlotRelease = 0 :=
  countP_yields_eq_zero (fun _ => rfl) cs k

/-- Claim C3 (amended): on every uncancelled `predict` or `stream` call, the
token cost is computed exactly once when a token-rate limiter is configured and
not at all otherwise; the computation happens after the request-rate acquire
(when one is configured) and before the token-rate acquire and the
concurrency-slot acquire, using the pass-through cost functions. -/
theorem c3_cost_computed_inside_tpm_branch (self : RatelimitedEngine) (m : List Nat)
    (f : Option (List Nat)) (consumed : Nat) :
    allBefore (predict self m f CancelPoint.never).trace isRpmAcquire isCostCompute ∧
    allBefore (predict self m f CancelPoint.never).trace isCostCompute isTpmAcquire ∧
    allBefore (predict self m f CancelPoint.never).trace isCostCompute isSlotAcquire ∧
    ((predict self m f CancelPoint.never).trace.countP isCostCompute =
      (if self.tpm_limiter.isSome = true then 1 else 0)) ∧
    ((Event.computeCost (nToks self m f) ∈ (predict self m f CancelPoint.never).trace) ↔
      self.tpm_limiter.isSome = true) ∧
    allBefore (stream self m f CancelPoint.never consumed).trace isRpmAcquire isCostCompute ∧
    allBefore (stream self m f CancelPoint.never consumed).trace isCostCompute isTpmAcquire ∧
    allBefore (stream self m f CancelPoint.never consumed).trace isCostCompute isSlotAcquire ∧
    ((stream self m f CancelPoint.never consumed).trace.countP isCostCompute =
      (if self.tpm_limiter.isSome = true then 1 else 0)) ∧
    ((Event.computeCost (nToks self m f) ∈ (stream self m f CancelPoint.never consumed).trace) ↔
      self.tpm_limiter.isSome = true) := by
  have op := rankOrdered_predict self m f
  have os := rankOrdered_stream self m f consumed
  refine ⟨allBefore_of_rankOrdered op (fun a b ha hb => by
      rw [rank_of_isRpmAcquire ha, rank_of_isCostCompute hb]; omega),
    allBefore_of_rankOrdered op (fun a b ha hb => by
      rw [rank_of_isCostCompute ha, rank_of_isTpmAcquire hb]; omega),
    allBefore_of_rankOrdered op (fun a b ha hb => by
      rw [rank_of_isCostCompute ha, rank_of_isSlotAcquire hb]; omega),
    ?_, ?_,
    allBefore_of_rankOrdered os (fun a b ha hb => by
      rw [rank_of_isRpmAcquire ha, rank_of_isCostCompute hb]; omega),
    allBefore_of_rankOrdered os (fun a b ha hb => by
      rw [rank_of_isCostCompute ha, rank_of_isTpmAcquire hb]; omega),
    allBefore_of_rankOrdered os (fun a b ha hb => by
      rw [rank_of_isCostCompute ha, rank_of_isSlotAcquire hb]; omega),
    ?_, ?_⟩ <;>
  (rcases self with ⟨E, sem, rpm, tpm, mcs, tres⟩
   rcases sem with _ | sv <;> rcases rpm with _ | L1 <;> rcases tpm with _ | L2 <;>
     simp [predict, stream, ratelimitCall, List.countP_append, List.countP_cons,
       countP_costCompute_yields, not_mem_yields_computeCost, isCostCompute])

/-- Witness for the amended C3 at a concrete fully configured wrapper. -/
theorem c3_witness :
    allBefore (predict demoRE [3] none CancelPoint.never).trace isRpmAcquire isCostCompute ∧
    allBefore (predict demoRE [3] none CancelPoint.never).trace isCostCompute isTpmAcquire ∧
    allBefore (predict demoRE [3] none CancelPoint.never).trace isCostCompute isSlotAcquire ∧
    ((predict demoRE [3] none CancelPoint.never).trace.countP isCostCompute =
      (if demoRE.tpm_limiter.isSome = true then 1 else 0)) ∧
    ((Event.computeCost (nToks demoRE [3] none) ∈
        (predict demoRE [3] none CancelPoint.never).trace) ↔
      demoRE.tpm_limiter.isSome = true) ∧
    allBefore (stream demoRE [3] none CancelPoint.never 2).trace isRpmAcquire isCostCompute ∧
    allBefore (stream demoRE [3] none CancelPoint.never 2).trace isCostCompute isTpmAcquire ∧
    allBefore (stream demoRE [3] none CancelPoint.never 2).trace isCostCompute isSlotAcquire ∧
    ((stream demoRE [3] none CancelPoint.never 2).trace.countP isCostCompute =
      (if demoRE.tpm_limiter.isSome = true then 1 else 0)) ∧
    ((Event.computeCost (nToks demoRE [3] none) ∈
        (stream demoRE [3] none CancelPoint.never 2).trace) ↔
      demoRE.tpm_limiter.isSome = true) :=
  c3_cost_computed_inside_tpm_branch demoRE [3] none 2

/-! ### Claim C4: failure after admission -/

/-- Claim C4: when the wrapped engine's predict fails after admission
succeeded, the failure is propagated unchanged as the call's outcome, the
concurrency slot is released exactly as many times as it was acquired (exactly
once when a semaphore is configured), and the limiter tokens spent for the call
are not refunded: the final limiter states are exactly the post-admission
states, drained by cost 1 and by the estimated token cost respectively. -/
theorem c4_failure_propagated_slot_released_no_refund (self : RatelimitedEngine)
    (m : List Nat) (f : Option (List Nat)) (e : Nat)
    (h : self.engine.predictResult m f = Except.error e) :
    (predict self m f CancelPoint.never).outcome = Outcome.completed (Except.error e) ∧
    (predict self m f CancelPoint.never).trace.count Event.releaseSlot =
      (predict self m f CancelPoint.never).trace.count Event.acquireSlot ∧
    (self.concurrency_semaphore.isSome = true →
      (predict self m f CancelPoint.never).trace.count Event.releaseSlot = 1) ∧
    (predict self m f CancelPoint.never).rpm = self.rpm_limiter.map (fun l => spend l 1) ∧
    (predict self m f CancelPoint.never).tpm =
      self.tpm_limiter.map (fun l => spend l ((nToks self m f : ℚ))) := by
  rcases self with ⟨E, sem, rpm, tpm, mcs, tres⟩
  rcases sem with _ | sv <;> rcases rpm with _ | L1 <;> rcases tpm with _ | L2 <;>
    simp_all [predict, ratelimitCall, List.count_append]

/-- Witness for C4: a wrapper around an engine whose predict fails with
error 42. -/
theorem c4_witness :
    failingRE.engine.predictResult [1] none = Except.error 42 ∧
    ((predict failingRE [1] none CancelPoint.never).outcome =
        Outcome.completed (Except.error 42) ∧
      (predict failingRE [1] none CancelPoint.never).trace.count Event.releaseSlot =
        (predict failingRE [1] none CancelPoint.never).trace.count Event.acquireSlot ∧
      (failingRE.concurrency_semaphore.isSome = true →
        (predict failingRE [1] none CancelPoint.never).trace.count Event.releaseSlot = 1) ∧
      (predict failingRE [1] none CancelPoint.never).rpm =
        failingRE.rpm_limiter.map (fun l => spend l 1) ∧
      (predict failingRE [1] none CancelPoint.never).tpm =
        failingRE.tpm_limiter.map (fun l => spend l ((nToks failingRE [1] none : ℚ)))) :=
  ⟨rfl, c4_failure_propagated_slot_released_no_refund failingRE [1] none 42 rfl⟩

/-! ### Claim C5: the token cost formula -/

/-- Claim C5: whenever a token-rate limiter is configured, the token cost used
for the token-rate check equals the wrapped engine's function token reserve
plus the sum of the wrapped engine's message lengths over the messages; it is
computed exactly once per call, the token-rate acquisition of that call uses
exactly that cost (on `predict` and on `stream`), and the token-rate limiter is
drained by exactly that cost. -/
theorem c5_token_cost_formula (self : RatelimitedEngine) (m : List Nat)
    (f : Option (List Nat)) (consumed : Nat) (L : TokenBucketLimiter)
    (h : self.tpm_limiter = some L) :
    nToks self m f =
      self.engine.function_token_reserve f + (m.map self.engine.message_len).sum ∧
    Event.computeCost (nToks self m f) ∈ (predict self m f CancelPoint.never).trace ∧
    (predict self m f CancelPoint.never).trace.countP isCostCompute = 1 ∧
    Event.acquireTpm ((nToks self m f : ℚ)) ∈ (predict self m f CancelPoint.never).trace ∧
    (∀ c : ℚ, Event.acquireTpm c ∈ (predict self m f CancelPoint.never).trace →
      c = ((nToks self m f : ℚ))) ∧
    (predict self m f CancelPoint.never).tpm = some (spend L ((nToks self m f : ℚ))) ∧
    Event.computeCost (nToks self m f) ∈ (stream self m f CancelPoint.never consumed).trace ∧
    (stream self m f CancelPoint.never consumed).trace.countP isCostCompute = 1 ∧
    Event.acquireTpm ((nToks self m f : ℚ)) ∈
      (stream self m f CancelPoint.never consumed).trace ∧
    (∀ c : ℚ, Event.acquireTpm c ∈ (stream self m f CancelPoint.never consumed).trace →
      c = ((nToks self m f : ℚ))) ∧
    (stream self m f CancelPoint.never consumed).tpm =
      some (spend L ((nToks self m f : ℚ))) := by
  rcases self with ⟨E, sem, rpm, tpm, mcs, tres⟩
  cases h
  refine ⟨rfl, ?_⟩
  rcases sem with _ | sv <;> rcases rpm with _ | L1 <;>
    simp [predict, stream, ratelimitCall, List.countP_append, List.countP_cons,
      countP_costCompute_yields, not_mem_yields_computeCost, not_mem_yields_acquireTpm,
      isCostCompute, nToks, message_len, function_token_reserve]

/-- Witness for C5 at a concrete fully configured wrapper. -/
theorem c5_witness :
    demoRE.tpm_limiter = some (mkLimiter 100 60) ∧
    (nToks demoRE [3] none =
      demoRE.engine.function_token_reserve none + ([3].map demoRE.engine.message_len).sum ∧
    Event.computeCost (nToks demoRE [3] none) ∈ (predict demoRE [3] none CancelPoint.never).trace ∧
    (predict demoRE [3] none CancelPoint.never).trace.countP isCostCompute = 1 ∧
    Event.acquireTpm ((nToks demoRE [3] none : ℚ)) ∈
      (predict demoRE [3] none CancelPoint.never).trace ∧
    (∀ c : ℚ, Event.acquireTpm c ∈ (predict demoRE [3] none CancelPoint.never).trace →
      c = ((nToks demoRE [3] none : ℚ))) ∧
    (predict demoRE [3] none CancelPoint.never).tpm =
      some (spend (mkLimiter 100 60) ((nToks demoRE [3] none : ℚ))) ∧
    Event.computeCost (nToks demoRE [3] none) ∈
      (stream demoRE [3] none CancelPoint.never 2).trace ∧
    (stream demoRE [3] none CancelPoint.never 2).trace.countP isCostCompute = 1 ∧
    Event.acquireTpm ((nToks demoRE [3] none : ℚ)) ∈
      (stream demoRE [3] none CancelPoint.never 2).trace ∧
    (∀ c : ℚ, Event.acquireTpm c ∈ (stream demoRE [3] none CancelPoint.never 2).trace →
      c = ((nToks demoRE [3] none : ℚ))) ∧
    (stream demoRE [3] none CancelPoint.never 2).tpm =
      some (spend (mkLimiter 100 60) ((nToks demoRE [3] none : ℚ)))) :=
  ⟨rfl, c5_token_cost_formula demoRE [3] none 2 (mkLimiter 100 60) rfl⟩

/-! ### Claim C6: the slot spans the whole stream -/

lemma rank_of_isYield {a : Event} (h : isYield a = true) : rank a = 5 := by
  cases a <;> simp_all [isYield]

/-- When a semaphore is configured, the trace of an uncancelled call ends with
the release of the concurrency slot. -/
lemma ratelimitCall_trace_ends_with_release (self : RatelimitedEngine) (m : List Nat)
    (f : Option (List Nat)) (be : List Event) (bo : Outcome) (sv : Nat)
    (h : self.concurrency_semaphore = some sv) :
    ∃ pre, (ratelimitCall self m f CancelPoint.never be bo).trace =
      pre ++ [Event.releaseSlot] := by
  refine ⟨(if self.rpm_limiter.isSome = true then [Event.acquireRpm 1] else []) ++
    ((if self.tpm_limiter.isSome = true then
        [Event.computeCost (nToks self m f), Event.acquireTpm ((nToks self m f : ℚ))]
      else []) ++
    ([Event.acquireSlot] ++ be)), ?_⟩
  simp [ratelimitCall, h, List.append_assoc]

/-- Claim C6: on every uncancelled `stream` call with a configured concurrency
semaphore, and for every number of chunks the consumer drains before closing
the sequence (full exhaustion or early abandonment), the concurrency slot is
acquired, released exactly once, and the release happens only after the
acquisition, after the invocation of the wrapped engine's stream, and after
every chunk yielded to the consumer — indeed it is the very last event of the
call.  The slot is therefore held for the entire lifetime of the produced lazy
sequence. -/
theorem c6_slot_held_for_stream_lifetime (self : RatelimitedEngine) (m : List Nat)
    (f : Option (List Nat)) (consumed : Nat) (sv : Nat)
    (h : self.concurrency_semaphore = some sv) :
    Event.acquireSlot ∈ (stream self m f CancelPoint.never consumed).trace ∧
    (stream self m f CancelPoint.never consumed).trace.count Event.releaseSlot = 1 ∧
    allBefore (stream self m f CancelPoint.never consumed).trace isSlotAcquire isSlotRelease ∧
    allBefore (stream self m f CancelPoint.never consumed).trace isInvoke isSlotRelease ∧
    allBefore (stream self m f CancelPoint.never consumed).trace isYield isSlotRelease ∧
    (stream self m f CancelPoint.never consumed).trace.getLast? = some Event.releaseSlot := by
  have os := rankOrdered_stream self m f consumed
  refine ⟨?_, ?_, allBefore_of_rankOrdered os (fun a b ha hb => by
      rw [rank_of_isSlotAcquire ha, rank_of_isSlotRelease hb]; omega),
    allBefore_of_rankOrdered os (fun a b ha hb => by
      rw [rank_of_isInvoke ha, rank_of_isSlotRelease hb]; omega),
    allBefore_of_rankOrdered os (fun a b ha hb => by
      rw [rank_of_isYield ha, rank_of_isSlotRelease hb]; omega),
    ?_⟩
  · rcases self with ⟨E, sem, rpm, tpm, mcs, tres⟩
    cases h
    rcases rpm with _ | L1 <;> rcases tpm with _ | L2 <;>
      simp [stream, ratelimitCall]
  · rcases self with ⟨E, sem, rpm, tpm, mcs, tres⟩
    cases h
    rcases rpm with _ | L1 <;> rcases tpm with _ | L2 <;>
      simp [stream, ratelimitCall, List.count_append, count_releaseSlot_yields]
  · rcases ratelimitCall_trace_ends_with_release self m f
      (Event.invokeStream ::
        ((self.engine.streamChunks m f).take consumed).map Event.yieldChunk)
      (Outcome.streamed ((self.engine.streamChunks m f).take consumed)) sv h with ⟨pre, hpre⟩
    rw [stream, hpre]
    simp [List.getLast?_concat]

/-- Witness for C6 at a concrete fully configured wrapper, with the consumer
abandoning the stream after two of the three chunks. -/
theorem c6_witness :
    demoRE.concurrency_semaphore = some 2 ∧
    (Event.acquireSlot ∈ (stream demoRE [3] none CancelPoint.never 2).trace ∧
    (stream demoRE [3] none CancelPoint.never 2).trace.count Event.releaseSlot = 1 ∧
    allBefore (stream demoRE [3] none CancelPoint.never 2).trace isSlotAcquire isSlotRelease ∧
    allBefore (stream demoRE [3] none CancelPoint.never 2).trace isInvoke isSlotRelease ∧
    allBefore (stream demoRE [3] none CancelPoint.never 2).trace isYield isSlotRelease ∧
    (stream demoRE [3] none CancelPoint.never 2).trace.getLast? = some Event.releaseSlot) :=
  ⟨rfl, c6_slot_held_for_stream_lifetime demoRE [3] none 2 2 rfl⟩

/-! ### Claim C8: cancellation while awaiting admission -/

/-- Claim C8 counterexample: on a fully configured wrapper, a call cancelled
while suspended awaiting the token-rate admission does not unwind with all
limiter tokens unconsumed: the request-rate token acquired earlier in the same
call stays spent (the request-rate limiter state differs from its state before
the call). -/
theorem c8_counterexample :
    (predict demoRE [3] none CancelPoint.atTpm).outcome =
      Outcome.cancelledAwaitingAdmission ∧
    ¬ ((predict demoRE [3] none CancelPoint.atTpm).rpm = demoRE.rpm_limiter ∧
       (predict demoRE [3] none CancelPoint.atTpm).tpm = demoRE.tpm_limiter) := by
  constructor
  · simp [predict, ratelimitCall, demoRE, initEngine, demoConfig]
  · have hne : (predict demoRE [3] none CancelPoint.atTpm).rpm ≠ demoRE.rpm_limiter := by
      simp [predict, ratelimitCall, demoRE, initEngine, demoConfig, demoEngine, nToks,
        message_len, function_token_reserve, spend, mkLimiter]
    exact fun hc => hne hc.1

/-- Claim C8 (amended): cancellation while suspended at an admission await
consumes nothing at that await — the limiter or semaphore being waited on is
left untouched, no concurrency slot is acquired, and the wrapped engine is
never invoked — but acquisitions already completed earlier in the same call
stay consumed (they are not refunded on unwind). -/
theorem c8_cancellation_unwinds_without_new_consumption (self : RatelimitedEngine)
    (m : List Nat) (f : Option (List Nat)) :
    (self.rpm_limiter.isSome = true →
      (predict self m f CancelPoint.atRpm).rpm = self.rpm_limiter ∧
      (predict self m f CancelPoint.atRpm).tpm = self.tpm_limiter ∧
      (predict self m f CancelPoint.atRpm).trace = [] ∧
      (predict self m f CancelPoint.atRpm).outcome = Outcome.cancelledAwaitingAdmission) ∧
    (self.tpm_limiter.isSome = true →
      (predict self m f CancelPoint.atTpm).tpm = self.tpm_limiter ∧
      (predict self m f CancelPoint.atTpm).rpm = self.rpm_limiter.map (fun l => spend l 1) ∧
      (predict self m f CancelPoint.atTpm).trace.countP isSlotAcquire = 0 ∧
      (predict self m f CancelPoint.atTpm).trace.countP isInvoke = 0 ∧
      (predict self m f CancelPoint.atTpm).outcome = Outcome.cancelledAwaitingAdmission) ∧
    (self.concurrency_semaphore.isSome = true →
      (predict self m f CancelPoint.atSlot).trace.countP isSlotAcquire = 0 ∧
      (predict self m f CancelPoint.atSlot).trace.countP isInvoke = 0 ∧
      (predict self m f CancelPoint.atSlot).rpm = self.rpm_limiter.map (fun l => spend l 1) ∧
      (predict self m f CancelPoint.atSlot).tpm =
        self.tpm_limiter.map (fun l => spend l ((nToks self m f : ℚ))) ∧
      (predict self m f CancelPoint.atSlot).outcome = Outcome.cancelledAwaitingAdmission) := by
  rcases self with ⟨E, sem, rpm, tpm, mcs, tres⟩
  rcases sem with _ | sv <;> rcases rpm with _ | L1 <;> rcases tpm with _ | L2 <;>
    simp [predict, ratelimitCall, List.countP_append, List.countP_cons,
      isSlotAcquire, isInvoke]

/-- Witness for the amended C8 at a concrete fully configured wrapper, with the
three hypotheses discharged. -/
theorem c8_witness :
    ((predict demoRE [3] none CancelPoint.atRpm).rpm = demoRE.rpm_limiter ∧
      (predict demoRE [3] none CancelPoint.atRpm).tpm = demoRE.tpm_limiter ∧
      (predict demoRE [3] none CancelPoint.atRpm).trace = [] ∧
      (predict demoRE [3] none CancelPoint.atRpm).outcome =
        Outcome.cancelledAwaitingAdmission) ∧
    ((predict demoRE [3] none CancelPoint.atTpm).tpm = demoRE.tpm_limiter ∧
      (predict demoRE [3] none CancelPoint.atTpm).rpm =
        demoRE.rpm_limiter.map (fun l => spend l 1) ∧
      (predict demoRE [3] none CancelPoint.atTpm).trace.countP isSlotAcquire = 0 ∧
      (predict demoRE [3] none CancelPoint.atTpm).trace.countP isInvoke = 0 ∧
      (predict demoRE [3] none CancelPoint.atTpm).outcome =
        Outcome.cancelledAwaitingAdmission) ∧
    ((predict demoRE [3] none CancelPoint.atSlot).trace.countP isSlotAcquire = 0 ∧
      (predict demoRE [3] none CancelPoint.atSlot).trace.countP isInvoke = 0 ∧
      (predict demoRE [3] none CancelPoint.atSlot).rpm =
        demoRE.rpm_limiter.map (fun l => spend l 1) ∧
      (predict demoRE [3] none CancelPoint.atSlot).tpm =
        demoRE.tpm_limiter.map (fun l => spend l ((nToks demoRE [3] none : ℚ))) ∧
      (predict demoRE [3] none CancelPoint.atSlot).outcome =
        Outcome.cancelledAwaitingAdmission) :=
  ⟨(c8_cancellation_unwinds_without_new_consumption demoRE [3] none).1 rfl,
   (c8_cancellation_unwinds_without_new_consumption demoRE [3] none).2.1 rfl,
   (c8_cancellation_unwinds_without_new_consumption demoRE [3] none).2.2 rfl⟩

/-! ### Claim C9: absent limits are disabled -/

/-- Claim C9: every absent limit disables the corresponding check — no
request-rate acquisition happens without an rpm limiter, no token-cost
computation or token-rate acquisition without a tpm limiter, no slot
acquisition or release without a semaphore — and a call on a wrapper with no
limits configured performs no acquisition at all: its trace is just the
invocation of the wrapped engine (plus, for `stream`, the yielded chunks) and
its outcome is exactly the wrapped engine's result. -/
theorem c9_absent_limits_admit_immediately (self : RatelimitedEngine) (m : List Nat)
    (f : Option (List Nat)) (consumed : Nat) :
    (self.rpm_limiter = none →
      (predict self m f CancelPoint.never).trace.countP isRpmAcquire = 0 ∧
      (stream self m f CancelPoint.never consumed).trace.countP isRpmAcquire = 0) ∧
    (self.tpm_limiter = none →
      (predict self m f CancelPoint.never).trace.countP isTpmAcquire = 0 ∧
      (predict self m f CancelPoint.never).trace.countP isCostCompute = 0 ∧
      (stream self m f CancelPoint.never consumed).trace.countP isTpmAcquire = 0 ∧
      (stream self m f CancelPoint.never consumed).trace.countP isCostCompute = 0) ∧
    (self.concurrency_semaphore = none →
      (predict self m f CancelPoint.never).trace.countP isSlotAcquire = 0 ∧
      (predict self m f CancelPoint.never).trace.countP isSlotRelease = 0 ∧
      (stream self m f CancelPoint.never consumed).trace.countP isSlotAcquire = 0 ∧
      (stream self m f CancelPoint.never consumed).trace.countP isSlotRelease = 0) ∧
    (self.rpm_limiter = none → self.tpm_limiter = none → self.concurrency_semaphore = none →
      (predict self m f CancelPoint.never).trace = [Event.invokePredict] ∧
      (predict self m f CancelPoint.never).outcome =
        Outcome.completed (self.engine.predictResult m f) ∧
      (stream self m f CancelPoint.never consumed).trace =
        Event.invokeStream ::
          ((self.engine.streamChunks m f).take consumed).map Event.yieldChunk ∧
      (stream self m f CancelPoint.never consumed).outcome =
        Outcome.streamed ((self.engine.streamChunks m f).take consumed)) := by
  rcases self with ⟨E, sem, rpm, tpm, mcs, tres⟩
  refine ⟨fun h1 => ?_, fun h2 => ?_, fun h3 => ?_, fun h1 h2 h3 => ?_⟩
  · subst h1
    rcases sem with _ | sv <;> rcases tpm with _ | L2 <;>
      simp [predict, stream, ratelimitCall, List.countP_append, List.countP_cons,
        countP_rpmAcquire_yields, isRpmAcquire]
  · subst h2
    rcases sem with _ | sv <;> rcases rpm with _ | L1 <;>
      simp [predict, stream, ratelimitCall, List.countP_append, List.countP_cons,
        countP_tpmAcquire_yields, countP_costCompute_yields, isTpmAcquire, isCostCompute]
  · subst h3
    rcases rpm with _ | L1 <;> rcases tpm with _ | L2 <;>
      simp [predict, stream, ratelimitCall, List.countP_append, List.countP_cons,
        countP_slotAcquire_yields, countP_slotRelease_yields, isSlotAcquire, isSlotRelease]
  · subst h1; subst h2; subst h3
    simp [predict, stream, ratelimitCall]

/-- Witness for C9 at a concrete wrapper with no limits configured, with the
hypotheses discharged. -/
theorem c9_witness :
    ((predict unlimitedRE [3] none CancelPoint.never).trace.countP isRpmAcquire = 0 ∧
      (stream unlimitedRE [3] none CancelPoint.never 2).trace.countP isRpmAcquire = 0) ∧
    ((predict unlimitedRE [3] none CancelPoint.never).trace = [Event.invokePredict] ∧
      (predict unlimitedRE [3] none CancelPoint.never).outcome =
        Outcome.completed (unlimitedRE.engine.predictResult [3] none) ∧
      (stream unlimitedRE [3] none CancelPoint.never 2).trace =
        Event.invokeStream ::
          ((unlimitedRE.engine.streamChunks [3] none).take 2).map Event.yieldChunk ∧
      (stream unlimitedRE [3] none CancelPoint.never 2).outcome =
        Outcome.streamed ((unlimitedRE.engine.streamChunks [3] none).take 2)) :=
  ⟨(c9_absent_limits_admit_immediately unlimitedRE [3] none 2).1 rfl,
   (c9_absent_limits_admit_immediately unlimitedRE [3] none 2).2.2.2 rfl rfl rfl⟩

end KaniRatelimits
